import Mathlib

/-!
# Charity Finance Checker: ratio calculator and classifier

A shallow embedding of `src/CharityFinanceChecker.js` (the component
`CharityFinanceChecker`): its state (`financials`, `report`, `error`), the
callbacks `handleInputChange`, `calculateRatios`, `interpretRatio`,
`generateReport`, the `useEffect` that regenerates the report, and the table
`ratioExplanations`.

Modelling choices:

* The six fields hold strings, as `e.target.value` does.  The operators `/` and `*`
  coerce them with `ToNumber`, modelled by `toNumber` after the grammar
  `StringNumericLiteral`.
* JavaScript numbers are modelled in exact arithmetic: a `JSNum` is a rational, a
  negative zero, an infinity or NaN.  Rounding to binary64, overflow and underflow are
  not modelled.
* The method `toFixed` delegates to `ToString` for magnitudes of `10 ^ 21` or more; that
  text depends on the binary64 digits and is the parameter `numberToString`.
* The `name` of an edit is one of the six keys (`FieldName`): the inputs are rendered
  from the keys of `financials`.
* The state hooks are explicit state passing: a callback takes the state and returns the
  state after its `set...` calls.  An edit is `handleInputChange` followed by the effect;
  a click is `generateReport`.
-/

namespace CharityFinanceChecker

/-! ## JavaScript numbers, in exact arithmetic -/

/-- A JavaScript Number without binary64 rounding: `fin q` is the finite value
`q` (`fin 0` is `+0`), `negZero` is `-0`, `inf neg` is `-Infinity` when `neg`
and `Infinity` otherwise. -/
inductive JSNum where
  | nan
  | inf (neg : Bool)
  | negZero
  | fin (q : ℚ)
  deriving DecidableEq

namespace JSNum

/-- The rational a finite Number stands for (`-0` stands for `0`). -/
def toRat? : JSNum → Option ℚ
  | fin q => some q
  | negZero => some 0
  | _ => none

/-- The sign bit. -/
def isNeg : JSNum → Bool
  | nan => false
  | inf neg => neg
  | negZero => true
  | fin q => decide (q < 0)

/-- Holds of `+0` and `-0`. -/
def isZero : JSNum → Bool
  | negZero => true
  | fin q => decide (q = 0)
  | _ => false

/-- The zero with the given sign bit. -/
def signedZero (neg : Bool) : JSNum :=
  if neg then negZero else fin 0

/-- The operator `x < y` on Numbers: false as soon as an operand is NaN. -/
def lt : JSNum → JSNum → Bool
  | nan, _ => false
  | _, nan => false
  | inf a, inf b => a && !b
  | inf a, _ => a
  | _, inf b => !b
  | negZero, negZero => false
  | negZero, fin q => decide (0 < q)
  | fin p, negZero => decide (p < 0)
  | fin p, fin q => decide (p < q)

/-- The operator `x > y` on Numbers, which is `y < x`. -/
def gt (x y : JSNum) : Bool := lt y x

/-- The operator `x / y` on Numbers. -/
def div : JSNum → JSNum → JSNum
  | nan, _ => nan
  | _, nan => nan
  | inf _, inf _ => nan
  | inf a, y => inf (xor a y.isNeg)
  | x, inf b => signedZero (xor x.isNeg b)
  | x, y =>
    if y.isZero then
      if x.isZero then nan else inf (xor x.isNeg y.isNeg)
    else if x.isZero then signedZero (xor x.isNeg y.isNeg)
    else
      match x, y with
      | fin p, fin q => fin (p / q)
      | _, _ => nan

/-- The operator `x * y` on Numbers. -/
def mul : JSNum → JSNum → JSNum
  | nan, _ => nan
  | _, nan => nan
  | inf a, y => if y.isZero then nan else inf (xor a y.isNeg)
  | x, inf b => if x.isZero then nan else inf (xor x.isNeg b)
  | x, y =>
    if x.isZero || y.isZero then signedZero (xor x.isNeg y.isNeg)
    else
      match x, y with
      | fin p, fin q => fin (p * q)
      | _, _ => nan

end JSNum

/-! ## Strings as Numbers: `ToNumber` on a string (`StringToNumber`) -/

/-- The code points of `StrWhiteSpaceChar` (white space and line terminators). -/
def isStrWhiteSpaceChar (c : Char) : Bool :=
  let n := c.toNat
  n = 9 || n = 10 || n = 11 || n = 12 || n = 13 || n = 32 || n = 160 || n = 0x1680 ||
  (0x2000 ≤ n && n ≤ 0x200A) || n = 0x2028 || n = 0x2029 || n = 0x202F || n = 0x205F ||
  n = 0x3000 || n = 0xFEFF

/-- Strips leading and trailing `StrWhiteSpaceChar`s. -/
def trimWhiteSpace (cs : List Char) : List Char :=
  ((cs.dropWhile isStrWhiteSpaceChar).reverse.dropWhile isStrWhiteSpaceChar).reverse

/-- The value of a digit in the given base (2, 8, 10 or 16), if it is one. -/
def digitValue? (base : Nat) (c : Char) : Option Nat :=
  let n := c.toNat
  let v :=
    if 48 ≤ n && n ≤ 57 then some (n - 48)
    else if 97 ≤ n && n ≤ 102 then some (n - 87)
    else if 65 ≤ n && n ≤ 70 then some (n - 55)
    else none
  match v with
  | some d => if d < base then some d else none
  | none => none

/-- Holds of the decimal digits `0`..`9`. -/
def isDecimalDigit (c : Char) : Bool := (digitValue? 10 c).isSome

/-- The number written by a list of digits, read from the left with accumulator `acc`;
`none` when a character is not a digit of the base. -/
def digitsValue? (base : Nat) (acc : Nat) : List Char → Option Nat
  | [] => some acc
  | c :: cs =>
    match digitValue? base c with
    | some d => digitsValue? base (acc * base + d) cs
    | none => none

/-- The value of a non-empty run of digits of the base that makes up the whole list. -/
def wholeDigits? (base : Nat) (cs : List Char) : Option Nat :=
  if cs.isEmpty then none else digitsValue? base 0 cs

/-- The grammar `SignedInteger` of an exponent part: the exponent it denotes. -/
def signedInteger? : List Char → Option Int
  | '+' :: cs => (wholeDigits? 10 cs).map Int.ofNat
  | '-' :: cs => (wholeDigits? 10 cs).map (fun n => - Int.ofNat n)
  | cs => (wholeDigits? 10 cs).map Int.ofNat

/-- The optional `ExponentPart` that ends a decimal literal: `0` when absent. -/
def exponentPart? : List Char → Option Int
  | [] => some 0
  | 'e' :: cs => signedInteger? cs
  | 'E' :: cs => signedInteger? cs
  | _ => none

/-- The grammar `StrUnsignedDecimalLiteral` without `Infinity`: the literal denotes
`mantissa * 10 ^ exponent`, returned as the pair `(mantissa, exponent)`. -/
def unsignedDecimal? (cs : List Char) : Option (Nat × Int) :=
  let intPart := cs.takeWhile isDecimalDigit
  let rest := cs.dropWhile isDecimalDigit
  match rest with
  | '.' :: more =>
    let fracPart := more.takeWhile isDecimalDigit
    let tail := more.dropWhile isDecimalDigit
    if intPart.isEmpty && fracPart.isEmpty then none
    else
      match digitsValue? 10 0 (intPart ++ fracPart), exponentPart? tail with
      | some m, some e => some (m, e - Int.ofNat fracPart.length)
      | _, _ => none
  | _ =>
    if intPart.isEmpty then none
    else
      match digitsValue? 10 0 intPart, exponentPart? rest with
      | some m, some e => some (m, e)
      | _, _ => none

/-- A parsed `StringNumericLiteral`: `blank` is the empty or all-white-space text,
`invalid` is text that does not match the grammar, `decimal neg m e` is the decimal
literal of sign `neg` denoting `m * 10 ^ e`, `integer n` is a `0x`, `0o` or `0b`
literal. -/
inductive NumericLiteral where
  | blank
  | invalid
  | infinity (neg : Bool)
  | decimal (neg : Bool) (mantissa : Nat) (exponent : Int)
  | integer (n : Nat)
  deriving DecidableEq, Repr

/-- The grammar `StrUnsignedDecimalLiteral` with the sign already read. -/
def strUnsignedDecimalLiteral (neg : Bool) (cs : List Char) : NumericLiteral :=
  if cs = ['I', 'n', 'f', 'i', 'n', 'i', 't', 'y'] then .infinity neg
  else
    match unsignedDecimal? cs with
    | some (m, e) => .decimal neg m e
    | none => .invalid

/-- A non-decimal integer literal (`0x`, `0o`, `0b`) in the given base. -/
def nonDecimalIntegerLiteral (base : Nat) (cs : List Char) : NumericLiteral :=
  match wholeDigits? base cs with
  | some n => .integer n
  | none => .invalid

/-- The grammar `StrNumericLiteral` on a trimmed, non-empty list of characters. -/
def strNumericLiteral : List Char → NumericLiteral
  | '0' :: 'x' :: cs => nonDecimalIntegerLiteral 16 cs
  | '0' :: 'X' :: cs => nonDecimalIntegerLiteral 16 cs
  | '0' :: 'o' :: cs => nonDecimalIntegerLiteral 8 cs
  | '0' :: 'O' :: cs => nonDecimalIntegerLiteral 8 cs
  | '0' :: 'b' :: cs => nonDecimalIntegerLiteral 2 cs
  | '0' :: 'B' :: cs => nonDecimalIntegerLiteral 2 cs
  | '+' :: cs => strUnsignedDecimalLiteral false cs
  | '-' :: cs => strUnsignedDecimalLiteral true cs
  | cs => strUnsignedDecimalLiteral false cs

/-- The grammar `StringNumericLiteral`: white space is trimmed first. -/
def stringNumericLiteral (s : String) : NumericLiteral :=
  let cs := trimWhiteSpace s.data
  if cs.isEmpty then .blank else strNumericLiteral cs

/-- The Number a parsed literal denotes (`StringNumericValue`, without rounding):
blank text is `+0`, invalid text is NaN, a zero mantissa keeps its sign. -/
def NumericLiteral.value : NumericLiteral → JSNum
  | .blank => .fin 0
  | .invalid => .nan
  | .infinity neg => .inf neg
  | .decimal neg mantissa exponent =>
    if mantissa = 0 then JSNum.signedZero neg
    else if neg then .fin (-((mantissa : ℚ) * (10 : ℚ) ^ exponent))
    else .fin ((mantissa : ℚ) * (10 : ℚ) ^ exponent)
  | .integer n => .fin (n : ℚ)

/-- The coercion `ToNumber` applied to a string, as the operators `/` and `*` apply it
to the field texts. -/
def toNumber (s : String) : JSNum := (stringNumericLiteral s).value

/-! ## `Number.prototype.toFixed` -/

/-- The decimal digits of `n`, padded with zeros on the left to `f + 1` digits, with a
point before the last `f` digits (no point when `f = 0`). -/
def pointDigits (n : Nat) (f : Nat) : String :=
  let m : List Char := Nat.toDigits 10 n
  if f = 0 then String.mk m
  else
    let m := if m.length ≤ f then List.replicate (f + 1 - m.length) '0' ++ m else m
    let k := m.length
    String.mk (m.take (k - f) ++ '.' :: m.drop (k - f))

/-- The digits `toFixed` prints for a finite `x` with `0 ≤ x < 10 ^ 21`: those of the
integer `n` nearest to `x * 10 ^ f` (the larger one on a tie). -/
def fixedDigits (x : ℚ) (f : Nat) : String :=
  pointDigits (⌊x * (10 : ℚ) ^ f + 1 / 2⌋).toNat f

/-- The method `x.toFixed(f)`.  For a magnitude of `10 ^ 21` or more it returns the
`ToString` of the Number, whose digits depend on the binary64 representation; that
conversion is the parameter `numberToString`. -/
def toFixed (numberToString : ℚ → String) (x : JSNum) (f : Nat) : String :=
  match x with
  | .nan => "NaN"
  | .inf false => "Infinity"
  | .inf true => "-Infinity"
  | .negZero => fixedDigits 0 f
  | .fin q =>
    if q < 0 then
      "-" ++ (if (10 : ℚ) ^ 21 ≤ -q then numberToString (-q) else fixedDigits (-q) f)
    else
      if (10 : ℚ) ^ 21 ≤ q then numberToString q else fixedDigits q f

/-! ## The component state -/

/-- The state `financials`: the text of the six input fields. -/
structure Financials where
  totalRevenue : String
  totalExpenses : String
  netIncome : String
  currentAssets : String
  currentLiabilities : String
  employmentCosts : String
  deriving DecidableEq, Repr

/-- The `name` of an input: the inputs are rendered from the keys of `financials`. -/
inductive FieldName where
  | totalRevenue
  | totalExpenses
  | netIncome
  | currentAssets
  | currentLiabilities
  | employmentCosts
  deriving DecidableEq, Repr

/-- The update `{ ...prev, [name]: value }`. -/
def Financials.set (prev : Financials) (name : FieldName) (value : String) : Financials :=
  match name with
  | .totalRevenue => { prev with totalRevenue := value }
  | .totalExpenses => { prev with totalExpenses := value }
  | .netIncome => { prev with netIncome := value }
  | .currentAssets => { prev with currentAssets := value }
  | .currentLiabilities => { prev with currentLiabilities := value }
  | .employmentCosts => { prev with employmentCosts := value }

/-- The list `Object.values(financials)`, in key order. -/
def Financials.values (f : Financials) : List String :=
  [f.totalRevenue, f.totalExpenses, f.netIncome, f.currentAssets, f.currentLiabilities,
    f.employmentCosts]

/-- One ratio of the object `calculateRatios` returns. -/
structure RatioData where
  value : JSNum
  calculation : String
  deriving DecidableEq

/-- The object `calculateRatios` returns. -/
structure Ratios where
  profitMargin : RatioData
  expenseRatio : RatioData
  liquidityCover : RatioData
  employmentCostRatio : RatioData
  deriving DecidableEq

/-- The list `Object.entries(ratios)`, in key order. -/
def Ratios.entries (r : Ratios) : List (String × RatioData) :=
  [("profitMargin", r.profitMargin), ("expenseRatio", r.expenseRatio),
    ("liquidityCover", r.liquidityCover), ("employmentCostRatio", r.employmentCostRatio)]

/-- One entry of the state `report`. -/
structure ReportEntry where
  name : String
  value : String
  calculation : String
  interpretation : String
  deriving DecidableEq, Repr

/-- The state of the component: `financials`, `report` (`none` is `null`) and `error`. -/
structure State where
  financials : Financials
  report : Option (List ReportEntry)
  error : String
  deriving DecidableEq

/-- The initial state of the `useState` hooks. -/
def State.initial : State :=
  { financials :=
      { totalRevenue := "", totalExpenses := "", netIncome := "", currentAssets := "",
        currentLiabilities := "", employmentCosts := "" }
    report := none
    error := "" }

/-- The coercion `ToBoolean` on a string: only the empty string is falsy. -/
def truthy (s : String) : Bool := s != ""

/-! ## The callbacks -/

/-- The handler `handleInputChange` for the event of input `name` holding `value`. -/
def handleInputChange (name : FieldName) (value : String) (s : State) : State :=
  { s with financials := s.financials.set name value, error := "" }

/-- The callback `calculateRatios`: the state after its `setError`, and what it returns
(`none` is `null`). -/
def calculateRatios (s : State) : State × Option Ratios :=
  let totalRevenue := s.financials.totalRevenue
  let totalExpenses := s.financials.totalExpenses
  let netIncome := s.financials.netIncome
  let currentAssets := s.financials.currentAssets
  let currentLiabilities := s.financials.currentLiabilities
  let employmentCosts := s.financials.employmentCosts
  if !truthy totalRevenue || !truthy totalExpenses || !truthy netIncome ||
      !truthy currentAssets || !truthy currentLiabilities || !truthy employmentCosts then
    ({ s with error := "Please fill in all fields." }, none)
  else
    let profitMargin := ((toNumber netIncome).div (toNumber totalRevenue)).mul (.fin 100)
    let expenseRatio := ((toNumber totalExpenses).div (toNumber totalRevenue)).mul (.fin 100)
    let liquidityCover := (toNumber currentAssets).div (toNumber currentLiabilities)
    let employmentCostRatio :=
      ((toNumber employmentCosts).div (toNumber totalExpenses)).mul (.fin 100)
    (s, some
      { profitMargin :=
          { value := profitMargin
            calculation := "(" ++ netIncome ++ " / " ++ totalRevenue ++ ") * 100" }
        expenseRatio :=
          { value := expenseRatio
            calculation := "(" ++ totalExpenses ++ " / " ++ totalRevenue ++ ") * 100" }
        liquidityCover :=
          { value := liquidityCover
            calculation := currentAssets ++ " / " ++ currentLiabilities }
        employmentCostRatio :=
          { value := employmentCostRatio
            calculation := "(" ++ employmentCosts ++ " / " ++ totalExpenses ++ ") * 100" } })

/-- The callback `interpretRatio(ratio, name)`. -/
def interpretRatio (ratio : JSNum) (name : String) : String :=
  if name = "profitMargin" then
    if ratio.gt (.fin 10) then "Good" else if ratio.gt (.fin 5) then "OK" else "Bad"
  else if name = "expenseRatio" then
    if ratio.lt (.fin 65) then "Good" else if ratio.lt (.fin 80) then "OK" else "Bad"
  else if name = "liquidityCover" then
    if ratio.gt (.fin 2) then "Good" else if ratio.gt (.fin 1) then "OK" else "Bad"
  else if name = "employmentCostRatio" then
    if ratio.lt (.fin 30) then "Good" else if ratio.lt (.fin 40) then "OK" else "Bad"
  else
    "Unknown"

/-- The entry `generateReport` builds from one entry `[name, data]` of the ratios. -/
def reportEntry (numberToString : ℚ → String) (entry : String × RatioData) : ReportEntry :=
  { name := entry.1
    value := toFixed numberToString entry.2.value 2
    calculation := entry.2.calculation
    interpretation := interpretRatio entry.2.value entry.1 }

/-- The callback `generateReport`: the state after its `setReport`. -/
def generateReport (numberToString : ℚ → String) (s : State) : State :=
  match calculateRatios s with
  | (s', some ratios) =>
    { s' with report := some (ratios.entries.map (reportEntry numberToString)) }
  | (s', none) => s'

/-- The effect that runs after `financials` changed. -/
def useEffect (numberToString : ℚ → String) (s : State) : State :=
  if s.financials.values.all (fun val => val != "") then generateReport numberToString s
  else s

/-- What the user does: edit one input, or click `Generate Report`. -/
inductive Event where
  | change (name : FieldName) (value : String)
  | click

/-- One event: an edit runs `handleInputChange` and then the effect, a click runs
`generateReport`. -/
def step (numberToString : ℚ → String) (s : State) : Event → State
  | .change name value => useEffect numberToString (handleInputChange name value s)
  | .click => generateReport numberToString s

/-- The state after a sequence of events, from the initial state. -/
def run (numberToString : ℚ → String) (events : List Event) : State :=
  events.foldl (step numberToString) State.initial

/-! ## The thresholds shown to the user -/

/-- The object `thresholds` of one entry of `ratioExplanations`. -/
structure Thresholds where
  Good : String
  OK : String
  Bad : String
  deriving DecidableEq, Repr

/-- The table `ratioExplanations`: the description and the thresholds shown for a ratio
(`none` for a name that is not a key). -/
def ratioExplanations (name : String) : Option (String × Thresholds) :=
  if name = "profitMargin" then
    some ("Measures the charity's ability to generate surplus. Higher margins can be reinvested into programs.",
      { Good := "> 10%", OK := "5% - 10%", Bad := "< 5%" })
  else if name = "expenseRatio" then
    some ("Indicates how efficiently the charity uses its resources. Lower ratios are generally better.",
      { Good := "< 65%", OK := "65% - 80%", Bad := "> 80%" })
  else if name = "liquidityCover" then
    some ("Assesses the charity's ability to meet short-term obligations.",
      { Good := "> 2", OK := "1 - 2", Bad := "< 1" })
  else if name = "employmentCostRatio" then
    some ("Shows the proportion of expenses allocated to staff costs.",
      { Good := "< 30%", OK := "30% - 40%", Bad := "> 40%" })
  else
    none

/-- What a threshold text says: above a bound, below a bound, or from one bound to
another (both included). -/
inductive Range where
  | above (bound : Nat)
  | below (bound : Nat)
  | between (low high : Nat)
  deriving DecidableEq, Repr

/-- The words of a text, split at each space. -/
def splitSpaces : List Char → List (List Char)
  | [] => [[]]
  | c :: cs =>
    if c = ' ' then [] :: splitSpaces cs
    else
      match splitSpaces cs with
      | w :: ws => (c :: w) :: ws
      | [] => [[c]]

/-- The reading of a threshold text such as `> 10%`, `5% - 10%` or `< 1`, the percent
signs dropped. -/
def readThreshold (text : String) : Option Range :=
  match splitSpaces (text.data.filter (fun c => c != '%')) with
  | [['>'], n] => (wholeDigits? 10 n).map Range.above
  | [['<'], n] => (wholeDigits? 10 n).map Range.below
  | [lo, ['-'], hi] =>
    match wholeDigits? 10 lo, wholeDigits? 10 hi with
    | some a, some b => some (Range.between a b)
    | _, _ => none
  | _ => none

/-- Whether the value `x` lies in the range. -/
def Range.holds (x : ℚ) : Range → Bool
  | .above bound => decide ((bound : ℚ) < x)
  | .below bound => decide (x < (bound : ℚ))
  | .between low high => decide ((low : ℚ) ≤ x) && decide (x ≤ (high : ℚ))

/-- Whether the threshold text holds of `x` (false for a text that cannot be read). -/
def thresholdHolds (text : String) (x : ℚ) : Bool :=
  match readThreshold text with
  | some r => r.holds x
  | none => false

/-- The bands whose displayed threshold holds of the value `x`, by the table
`ratioExplanations`. -/
def displayedBands (name : String) (x : ℚ) : List String :=
  match ratioExplanations name with
  | some (_, t) =>
    (if thresholdHolds t.Good x then ["Good"] else []) ++
      (if thresholdHolds t.OK x then ["OK"] else []) ++
      (if thresholdHolds t.Bad x then ["Bad"] else [])
  | none => []

/-! ## Definitions used in the statements and proofs -/

/-- The object `calculateRatios` returns when its guard lets the call through, named
for the proofs. -/
def filledRatios (f : Financials) : Ratios :=
  { profitMargin :=
      { value := ((toNumber f.netIncome).div (toNumber f.totalRevenue)).mul (.fin 100)
        calculation := "(" ++ f.netIncome ++ " / " ++ f.totalRevenue ++ ") * 100" }
    expenseRatio :=
      { value := ((toNumber f.totalExpenses).div (toNumber f.totalRevenue)).mul (.fin 100)
        calculation := "(" ++ f.totalExpenses ++ " / " ++ f.totalRevenue ++ ") * 100" }
    liquidityCover :=
      { value := (toNumber f.currentAssets).div (toNumber f.currentLiabilities)
        calculation := f.currentAssets ++ " / " ++ f.currentLiabilities }
    employmentCostRatio :=
      { value := ((toNumber f.employmentCosts).div (toNumber f.totalExpenses)).mul (.fin 100)
        calculation := "(" ++ f.employmentCosts ++ " / " ++ f.totalExpenses ++ ") * 100" } }

/-- The scenario of the specification: revenue 1000, expenses 700, net income 300,
current assets 500, current liabilities 200, employment costs 210. -/
def scenario : Financials :=
  { totalRevenue := "1000", totalExpenses := "700", netIncome := "300",
    currentAssets := "500", currentLiabilities := "200", employmentCosts := "210" }

/-- The relation between the fields and the rest of the state that every event keeps:
with all fields filled the report is the one of the current fields and the error is
empty; the error is empty or the missing-fields message, the latter only with an empty
field. -/
def Consistent (numberToString : ℚ → String) (s : State) : Prop :=
  ((∀ v ∈ s.financials.values, v ≠ "") →
    s.report = some ((filledRatios s.financials).entries.map (reportEntry numberToString)) ∧
    s.error = "") ∧
  (s.error = "" ∨
    (s.error = "Please fill in all fields." ∧ ∃ v ∈ s.financials.values, v = ""))

/-- What an event does to the fields alone. -/
def Event.applyToFields (f : Financials) : Event → Financials
  | .change name value => f.set name value
  | .click => f

/-- The six edits that type the scenario of the specification into the empty form. -/
def fillScenario : List Event :=
  [.change .totalRevenue "1000", .change .totalExpenses "700", .change .netIncome "300",
    .change .currentAssets "500", .change .currentLiabilities "200",
    .change .employmentCosts "210"]

/-- The scenario typed in, and then the field `netIncome` emptied again. -/
def fillThenClear : List Event :=
  fillScenario ++ [.change .netIncome ""]

/-- The scenario typed in, `netIncome` emptied, and then set to 50. -/
def fillClearRefill : List Event :=
  fillThenClear ++ [.change .netIncome "50"]

/-- The form in which every ratio sits on a band boundary: profit margin 5, expense ratio
80, liquidity cover 1, employment cost ratio 40. -/
def boundaryForm : Financials :=
  { totalRevenue := "100", totalExpenses := "80", netIncome := "5",
    currentAssets := "200", currentLiabilities := "200", employmentCosts := "32" }

/-- The form with a zero revenue, the other fields as in the scenario. -/
def zeroRevenue : Financials :=
  { scenario with totalRevenue := "0" }

/-- The form with net income 10001 and revenue 100000, the other fields as in the
scenario: a profit margin of 10.001. -/
def justAboveTen : Financials :=
  { scenario with netIncome := "10001", totalRevenue := "100000" }

/-! ## Auxiliary facts -/

/-- Sample readings of field texts by the grammar `StringNumericLiteral`. -/
theorem stringNumericLiteral_samples :
    stringNumericLiteral "1000" = .decimal false 1000 0 ∧
    stringNumericLiteral " -12.50e-1 " = .decimal true 1250 (-3) ∧
    stringNumericLiteral ".5" = .decimal false 5 (-1) ∧
    stringNumericLiteral "5." = .decimal false 5 0 ∧
    stringNumericLiteral "-0" = .decimal true 0 0 ∧
    stringNumericLiteral "0x1F" = .integer 31 ∧
    stringNumericLiteral "-Infinity" = .infinity true ∧
    stringNumericLiteral "  " = .blank ∧
    stringNumericLiteral "1e" = .invalid ∧
    stringNumericLiteral "." = .invalid ∧
    stringNumericLiteral "12abc" = .invalid := by
  decide

/-- Sample outputs of the digit layout of `toFixed`. -/
theorem pointDigits_samples :
    pointDigits 3000 2 = "30.00" ∧ pointDigits 5 2 = "0.05" ∧ pointDigits 0 2 = "0.00" ∧
    pointDigits 12 0 = "12" := by
  decide

theorem values_all_iff (f : Financials) :
    f.values.all (fun val => val != "") = true ↔ ∀ v ∈ f.values, v ≠ "" := by
  simp [List.all_eq_true]

theorem filled_iff (f : Financials) :
    (∀ v ∈ f.values, v ≠ "") ↔
      f.totalRevenue ≠ "" ∧ f.totalExpenses ≠ "" ∧ f.netIncome ≠ "" ∧
        f.currentAssets ≠ "" ∧ f.currentLiabilities ≠ "" ∧ f.employmentCosts ≠ "" := by
  simp [Financials.values]

theorem not_filled_iff (f : Financials) :
    (¬ ∀ v ∈ f.values, v ≠ "") ↔ ∃ v ∈ f.values, v = "" := by
  simp

theorem calculateRatios_of_filled (s : State) (h : ∀ v ∈ s.financials.values, v ≠ "") :
    calculateRatios s = (s, some (filledRatios s.financials)) := by
  obtain ⟨h1, h2, h3, h4, h5, h6⟩ := (filled_iff _).1 h
  simp [calculateRatios, truthy, h1, h2, h3, h4, h5, h6, filledRatios]

theorem calculateRatios_of_empty (s : State) (h : ∃ v ∈ s.financials.values, v = "") :
    calculateRatios s = ({ s with error := "Please fill in all fields." }, none) := by
  have h' : ¬ (s.financials.totalRevenue ≠ "" ∧ s.financials.totalExpenses ≠ "" ∧
      s.financials.netIncome ≠ "" ∧ s.financials.currentAssets ≠ "" ∧
      s.financials.currentLiabilities ≠ "" ∧ s.financials.employmentCosts ≠ "") := by
    rw [← filled_iff, not_filled_iff]; exact h
  simp only [calculateRatios, truthy]
  rw [if_pos]
  by_contra hc
  apply h'
  simp only [Bool.or_eq_true, Bool.not_eq_true', bne_eq_false_iff_eq, not_or] at hc
  simp only [ne_eq]
  tauto

theorem generateReport_of_filled (numberToString : ℚ → String) (s : State)
    (h : ∀ v ∈ s.financials.values, v ≠ "") :
    generateReport numberToString s =
      { s with
        report := some ((filledRatios s.financials).entries.map (reportEntry numberToString)) } := by
  simp [generateReport, calculateRatios_of_filled s h]

theorem generateReport_of_empty (numberToString : ℚ → String) (s : State)
    (h : ∃ v ∈ s.financials.values, v = "") :
    generateReport numberToString s = { s with error := "Please fill in all fields." } := by
  simp [generateReport, calculateRatios_of_empty s h]

/-- The text of an unsigned decimal literal with a non-zero mantissa is that number. -/
theorem toNumber_of_decimal (s : String) (m : Nat) (e : Int)
    (h : stringNumericLiteral s = .decimal false m e) (hm : m ≠ 0) :
    toNumber s = .fin ((m : ℚ) * (10 : ℚ) ^ e) := by
  simp [toNumber, h, NumericLiteral.value, hm]

theorem toNumber_scenario :
    toNumber "1000" = .fin 1000 ∧ toNumber "700" = .fin 700 ∧ toNumber "300" = .fin 300 ∧
      toNumber "500" = .fin 500 ∧ toNumber "200" = .fin 200 ∧ toNumber "210" = .fin 210 := by
  refine ⟨?_, ?_, ?_, ?_, ?_, ?_⟩
  · rw [toNumber_of_decimal "1000" 1000 0 (by decide) (by decide)]; norm_num
  · rw [toNumber_of_decimal "700" 700 0 (by decide) (by decide)]; norm_num
  · rw [toNumber_of_decimal "300" 300 0 (by decide) (by decide)]; norm_num
  · rw [toNumber_of_decimal "500" 500 0 (by decide) (by decide)]; norm_num
  · rw [toNumber_of_decimal "200" 200 0 (by decide) (by decide)]; norm_num
  · rw [toNumber_of_decimal "210" 210 0 (by decide) (by decide)]; norm_num

theorem consistent_initial (numberToString : ℚ → String) :
    Consistent numberToString State.initial := by
  refine ⟨fun h => ?_, Or.inl rfl⟩
  exact absurd rfl (h "" (by simp [State.initial, Financials.values]))

theorem consistent_step (numberToString : ℚ → String) (s : State) (e : Event)
    (hs : Consistent numberToString s) : Consistent numberToString (step numberToString s e) := by
  cases e with
  | change name value =>
    simp only [step, useEffect]
    split_ifs with hall
    · rw [values_all_iff] at hall
      rw [generateReport_of_filled _ _ hall]
      exact ⟨fun _ => ⟨rfl, rfl⟩, Or.inl rfl⟩
    · rw [values_all_iff] at hall
      exact ⟨fun h => absurd h hall, Or.inl rfl⟩
  | click =>
    simp only [step]
    by_cases hall : ∀ v ∈ s.financials.values, v ≠ ""
    · rw [generateReport_of_filled _ _ hall]
      exact ⟨fun _ => ⟨rfl, (hs.1 hall).2⟩, hs.2⟩
    · have hsome := (not_filled_iff _).1 hall
      rw [generateReport_of_empty _ _ hsome]
      exact ⟨fun h => absurd h hall, Or.inr ⟨rfl, hsome⟩⟩

theorem consistent_foldl (numberToString : ℚ → String) (events : List Event) :
    ∀ s, Consistent numberToString s →
      Consistent numberToString (events.foldl (step numberToString) s) := by
  induction events with
  | nil => intro s hs; exact hs
  | cons e es ih => intro s hs; exact ih _ (consistent_step numberToString s e hs)

theorem consistent_run (numberToString : ℚ → String) (events : List Event) :
    Consistent numberToString (run numberToString events) :=
  consistent_foldl numberToString events _ (consistent_initial numberToString)

theorem calculateRatios_financials (s : State) : (calculateRatios s).1.financials = s.financials := by
  simp only [calculateRatios]
  split_ifs <;> rfl

theorem generateReport_financials (numberToString : ℚ → String) (s : State) :
    (generateReport numberToString s).financials = s.financials := by
  have h := calculateRatios_financials s
  simp only [generateReport]
  split <;> simp_all

theorem step_financials (numberToString : ℚ → String) (s : State) (e : Event) :
    (step numberToString s e).financials = e.applyToFields s.financials := by
  cases e with
  | change name value =>
    simp only [step, useEffect, Event.applyToFields]
    split_ifs
    · rw [generateReport_financials]; rfl
    · rfl
  | click => simp only [step, Event.applyToFields, generateReport_financials]

theorem foldl_financials (numberToString : ℚ → String) (events : List Event) :
    ∀ s, (events.foldl (step numberToString) s).financials =
      events.foldl Event.applyToFields s.financials := by
  induction events with
  | nil => intro s; rfl
  | cons e es ih => intro s; simp only [List.foldl_cons, ih, step_financials]

theorem run_financials (numberToString : ℚ → String) (events : List Event) :
    (run numberToString events).financials =
      events.foldl Event.applyToFields State.initial.financials :=
  foldl_financials numberToString events _

theorem div_fin (p q : ℚ) (hp : p ≠ 0) (hq : q ≠ 0) :
    (JSNum.fin p).div (.fin q) = .fin (p / q) := by
  simp [JSNum.div, JSNum.isZero, hp, hq]

theorem mul_fin (p q : ℚ) (hp : p ≠ 0) (hq : q ≠ 0) :
    (JSNum.fin p).mul (.fin q) = .fin (p * q) := by
  simp [JSNum.mul, JSNum.isZero, hp, hq]

/-- The method `toFixed(f)` on a finite `q` with `0 ≤ q < 10 ^ 21` prints the digits of
the integer `n` with `n ≤ q * 10 ^ f + 1 / 2 < n + 1`. -/
theorem toFixed_of_nonneg (numberToString : ℚ → String) (q : ℚ) (f n : Nat) (h0 : 0 ≤ q)
    (hbig : q < (10 : ℚ) ^ 21)
    (hlo : (n : ℚ) ≤ q * (10 : ℚ) ^ f + 1 / 2) (hhi : q * (10 : ℚ) ^ f + 1 / 2 < (n : ℚ) + 1) :
    toFixed numberToString (.fin q) f = pointDigits n f := by
  have hfloor : ⌊q * (10 : ℚ) ^ f + 1 / 2⌋ = (n : ℤ) := by
    rw [Int.floor_eq_iff]
    exact ⟨by exact_mod_cast hlo, by exact_mod_cast hhi⟩
  simp only [toFixed, fixedDigits, hfloor, Int.toNat_ofNat, not_lt.2 h0, not_le.2 hbig, if_false]

theorem scenario_values :
    (filledRatios scenario).profitMargin.value = .fin 30 ∧
      (filledRatios scenario).expenseRatio.value = .fin 70 ∧
      (filledRatios scenario).liquidityCover.value = .fin (5 / 2) ∧
      (filledRatios scenario).employmentCostRatio.value = .fin 30 := by
  obtain ⟨h1, h2, h3, h4, h5, h6⟩ := toNumber_scenario
  simp only [filledRatios, scenario, h1, h2, h3, h4, h5, h6]
  refine ⟨?_, ?_, ?_, ?_⟩
  · rw [div_fin _ _ (by norm_num) (by norm_num), mul_fin _ _ (by norm_num) (by norm_num)]
    norm_num
  · rw [div_fin _ _ (by norm_num) (by norm_num), mul_fin _ _ (by norm_num) (by norm_num)]
    norm_num
  · rw [div_fin _ _ (by norm_num) (by norm_num)]
    norm_num
  · rw [div_fin _ _ (by norm_num) (by norm_num), mul_fin _ _ (by norm_num) (by norm_num)]
    norm_num

theorem interpretRatio_band (ratio : JSNum) (name : String)
    (hname : name = "profitMargin" ∨ name = "expenseRatio" ∨ name = "liquidityCover" ∨
      name = "employmentCostRatio") :
    interpretRatio ratio name = "Good" ∨ interpretRatio ratio name = "OK" ∨
      interpretRatio ratio name = "Bad" := by
  rcases hname with h | h | h | h <;> subst h <;> simp only [interpretRatio] <;>
    split_ifs <;> simp_all

theorem toRat?_div_zero (x y : JSNum) (hy : y.isZero = true) : (x.div y).toRat? = none := by
  cases x <;> cases y <;> simp_all [JSNum.div, JSNum.isZero, JSNum.toRat?]
  all_goals (split_ifs <;> rfl)

theorem toRat?_mul_of_none (x y : JSNum) (hx : x.toRat? = none) : (x.mul y).toRat? = none := by
  cases x <;> cases y <;> simp_all [JSNum.mul, JSNum.toRat?]
  all_goals (split_ifs <;> rfl)

theorem readThreshold_table :
    readThreshold "> 10%" = some (.above 10) ∧ readThreshold "5% - 10%" = some (.between 5 10) ∧
    readThreshold "< 5%" = some (.below 5) ∧ readThreshold "< 65%" = some (.below 65) ∧
    readThreshold "65% - 80%" = some (.between 65 80) ∧
    readThreshold "> 80%" = some (.above 80) ∧ readThreshold "> 2" = some (.above 2) ∧
    readThreshold "1 - 2" = some (.between 1 2) ∧ readThreshold "< 1" = some (.below 1) ∧
    readThreshold "< 30%" = some (.below 30) ∧
    readThreshold "30% - 40%" = some (.between 30 40) ∧
    readThreshold "> 40%" = some (.above 40) := by
  decide

theorem displayedBands_eq (x : ℚ) :
    displayedBands "profitMargin" x =
        (if 10 < x then ["Good"] else []) ++ (if 5 ≤ x ∧ x ≤ 10 then ["OK"] else []) ++
          (if x < 5 then ["Bad"] else []) ∧
      displayedBands "expenseRatio" x =
        (if x < 65 then ["Good"] else []) ++ (if 65 ≤ x ∧ x ≤ 80 then ["OK"] else []) ++
          (if 80 < x then ["Bad"] else []) ∧
      displayedBands "liquidityCover" x =
        (if 2 < x then ["Good"] else []) ++ (if 1 ≤ x ∧ x ≤ 2 then ["OK"] else []) ++
          (if x < 1 then ["Bad"] else []) ∧
      displayedBands "employmentCostRatio" x =
        (if x < 30 then ["Good"] else []) ++ (if 30 ≤ x ∧ x ≤ 40 then ["OK"] else []) ++
          (if 40 < x then ["Bad"] else []) := by
  obtain ⟨h1, h2, h3, h4, h5, h6, h7, h8, h9, h10, h11, h12⟩ := readThreshold_table
  have e1 : ratioExplanations "profitMargin" = some
      ("Measures the charity's ability to generate surplus. Higher margins can be reinvested into programs.",
        { Good := "> 10%", OK := "5% - 10%", Bad := "< 5%" }) := by decide
  have e2 : ratioExplanations "expenseRatio" = some
      ("Indicates how efficiently the charity uses its resources. Lower ratios are generally better.",
        { Good := "< 65%", OK := "65% - 80%", Bad := "> 80%" }) := by decide
  have e3 : ratioExplanations "liquidityCover" = some
      ("Assesses the charity's ability to meet short-term obligations.",
        { Good := "> 2", OK := "1 - 2", Bad := "< 1" }) := by decide
  have e4 : ratioExplanations "employmentCostRatio" = some
      ("Shows the proportion of expenses allocated to staff costs.",
        { Good := "< 30%", OK := "30% - 40%", Bad := "> 40%" }) := by decide
  simp only [displayedBands, e1, e2, e3, e4, thresholdHolds, h1, h2, h3, h4, h5, h6, h7, h8,
    h9, h10, h11, h12, Range.holds, Bool.and_eq_true, decide_eq_true_eq, Nat.cast_ofNat,
    Nat.cast_one]
  exact ⟨trivial, trivial, trivial, trivial⟩

/-- Away from the four boundary values 5, 80, 1 and 40, exactly one displayed threshold
holds of a value, and it is the band `interpretRatio` returns. -/
theorem displayedBands_agree (x : ℚ) :
    (x ≠ 5 → displayedBands "profitMargin" x = [interpretRatio (.fin x) "profitMargin"]) ∧
    (x ≠ 80 → displayedBands "expenseRatio" x = [interpretRatio (.fin x) "expenseRatio"]) ∧
    (x ≠ 1 → displayedBands "liquidityCover" x = [interpretRatio (.fin x) "liquidityCover"]) ∧
    (x ≠ 40 →
      displayedBands "employmentCostRatio" x =
        [interpretRatio (.fin x) "employmentCostRatio"]) := by
  obtain ⟨d1, d2, d3, d4⟩ := displayedBands_eq x
  rw [d1, d2, d3, d4]
  simp only [interpretRatio, JSNum.gt, JSNum.lt, decide_eq_true_eq,
    show ("expenseRatio" = "profitMargin") = False by decide,
    show ("liquidityCover" = "profitMargin") = False by decide,
    show ("liquidityCover" = "expenseRatio") = False by decide,
    show ("employmentCostRatio" = "profitMargin") = False by decide,
    show ("employmentCostRatio" = "expenseRatio") = False by decide,
    show ("employmentCostRatio" = "liquidityCover") = False by decide,
    if_true, if_false]
  refine ⟨fun hx => ?_, fun hx => ?_, fun hx => ?_, fun hx => ?_⟩
  all_goals
    rcases lt_or_gt_of_ne hx with h | h <;> split_ifs <;>
      first
        | rfl
        | (exfalso; linarith)
        | (exfalso; exact ‹¬(_ ∧ _)› ⟨by linarith, by linarith⟩)

/-! ## Classification -/

/-- C1: for every exact ratio value `x`, `interpretRatio` follows the threshold table
with strict comparisons, a boundary value falling to the lower band: profitMargin is
Good iff `x > 10`, OK iff `5 < x ≤ 10`, Bad iff `x ≤ 5`; expenseRatio is Good iff
`x < 65`, OK iff `65 ≤ x < 80`, Bad iff `x ≥ 80`; liquidityCover is Good iff `x > 2`,
OK iff `1 < x ≤ 2`, Bad iff `x ≤ 1`; employmentCostRatio is Good iff `x < 30`, OK iff
`30 ≤ x < 40`, Bad iff `x ≥ 40`; profitMargin 10 and expenseRatio 65 are OK. -/
theorem interpretRatio_threshold_table (x : ℚ) :
    ((interpretRatio (.fin x) "profitMargin" = "Good" ↔ x > 10) ∧
      (interpretRatio (.fin x) "profitMargin" = "OK" ↔ 5 < x ∧ x ≤ 10) ∧
      (interpretRatio (.fin x) "profitMargin" = "Bad" ↔ x ≤ 5)) ∧
    ((interpretRatio (.fin x) "expenseRatio" = "Good" ↔ x < 65) ∧
      (interpretRatio (.fin x) "expenseRatio" = "OK" ↔ 65 ≤ x ∧ x < 80) ∧
      (interpretRatio (.fin x) "expenseRatio" = "Bad" ↔ x ≥ 80)) ∧
    ((interpretRatio (.fin x) "liquidityCover" = "Good" ↔ x > 2) ∧
      (interpretRatio (.fin x) "liquidityCover" = "OK" ↔ 1 < x ∧ x ≤ 2) ∧
      (interpretRatio (.fin x) "liquidityCover" = "Bad" ↔ x ≤ 1)) ∧
    ((interpretRatio (.fin x) "employmentCostRatio" = "Good" ↔ x < 30) ∧
      (interpretRatio (.fin x) "employmentCostRatio" = "OK" ↔ 30 ≤ x ∧ x < 40) ∧
      (interpretRatio (.fin x) "employmentCostRatio" = "Bad" ↔ x ≥ 40)) ∧
    interpretRatio (.fin 10) "profitMargin" = "OK" ∧
    interpretRatio (.fin 65) "expenseRatio" = "OK" := by
  refine ⟨⟨?_, ?_, ?_⟩, ⟨?_, ?_, ?_⟩, ⟨?_, ?_, ?_⟩, ⟨?_, ?_, ?_⟩, by decide, by decide⟩ <;>
    simp only [interpretRatio, JSNum.gt, JSNum.lt, decide_eq_true_eq] <;>
    simp only [show ("expenseRatio" = "profitMargin") = False by decide,
      show ("liquidityCover" = "profitMargin") = False by decide,
      show ("liquidityCover" = "expenseRatio") = False by decide,
      show ("employmentCostRatio" = "profitMargin") = False by decide,
      show ("employmentCostRatio" = "expenseRatio") = False by decide,
      show ("employmentCostRatio" = "liquidityCover") = False by decide,
      if_true, if_false] <;>
    split_ifs <;>
    simp only [show ("Good" = "OK") = False by decide, show ("Good" = "Bad") = False by decide,
      show ("OK" = "Good") = False by decide, show ("OK" = "Bad") = False by decide,
      show ("Bad" = "Good") = False by decide, show ("Bad" = "OK") = False by decide,
      false_iff, true_iff, not_lt, not_le, not_and] <;>
    first
      | (constructor <;> linarith)
      | (intro _; linarith)
      | linarith


/-! ## The ratios -/

/-- C3: `calculateRatios` reports the missing-fields error exactly when a field is empty:
with an empty field it sets the error to `Please fill in all fields.` and returns null, and
`generateReport` leaves the report as it was; with all six fields non-empty it sets no
error and returns the four ratios. -/
theorem calculateRatios_missing_fields (numberToString : ℚ → String) (s : State) :
    ((∃ v ∈ s.financials.values, v = "") →
      calculateRatios s = ({ s with error := "Please fill in all fields." }, none) ∧
      (generateReport numberToString s).report = s.report ∧
      (generateReport numberToString s).error = "Please fill in all fields.") ∧
    ((∀ v ∈ s.financials.values, v ≠ "") →
      (calculateRatios s).1 = s ∧
      ∃ r, (calculateRatios s).2 = some r ∧ r.entries.length = 4) ∧
    ((calculateRatios s).2 = none ↔ ∃ v ∈ s.financials.values, v = "") := by
  refine ⟨fun h => ?_, fun h => ?_, ?_⟩
  · rw [generateReport_of_empty numberToString s h]
    exact ⟨calculateRatios_of_empty s h, rfl, rfl⟩
  · rw [calculateRatios_of_filled s h]
    exact ⟨rfl, _, rfl, rfl⟩
  · by_cases h : ∀ v ∈ s.financials.values, v ≠ ""
    · rw [calculateRatios_of_filled s h]
      constructor
      · intro hc; cases hc
      · intro hc; exact absurd h ((not_filled_iff _).2 hc)
    · have h' := (not_filled_iff _).1 h
      rw [calculateRatios_of_empty s h']
      exact ⟨fun _ => h', fun _ => rfl⟩

/-- C3 at two states: the initial state (all fields empty) gets the error and keeps its
absent report; the scenario of the specification gets no error and four ratios. -/
theorem calculateRatios_missing_fields_witness :
    ((∃ v ∈ State.initial.financials.values, v = "") ∧
      calculateRatios State.initial =
        ({ State.initial with error := "Please fill in all fields." }, none) ∧
      (generateReport (fun _ => "") State.initial).report = none ∧
      (generateReport (fun _ => "") State.initial).error = "Please fill in all fields.") ∧
    ((∀ v ∈ scenario.values, v ≠ "") ∧
      (calculateRatios { financials := scenario, report := none, error := "" }).1 =
        { financials := scenario, report := none, error := "" } ∧
      ∃ r, (calculateRatios { financials := scenario, report := none, error := "" }).2 = some r ∧
        r.entries.length = 4) :=
  ⟨⟨by decide,
      (calculateRatios_missing_fields (fun _ => "") State.initial).1 (by decide)⟩,
    ⟨by decide,
      (calculateRatios_missing_fields (fun _ => "")
        { financials := scenario, report := none, error := "" }).2.1 (by decide)⟩⟩

/-! ## Reachable states -/

/-- C4, refuted as stated: after the scenario is typed in and `netIncome` is emptied
again, a field is empty, yet the report is still present and no error is shown; so
neither "report present iff all fields non-empty" nor "empty field implies absent report
and error shown" holds in that reachable state. -/
theorem report_iff_filled_counterexample :
    ((run (fun _ => "") fillThenClear).report.isSome = true ∧
      (run (fun _ => "") fillThenClear).financials.netIncome = "" ∧
      (run (fun _ => "") fillThenClear).error = "") ∧
    ¬ (((run (fun _ => "") fillThenClear).report.isSome = true ↔
          ∀ v ∈ (run (fun _ => "") fillThenClear).financials.values, v ≠ "") ∧
        ((∃ v ∈ (run (fun _ => "") fillThenClear).financials.values, v = "") →
          (run (fun _ => "") fillThenClear).report = none ∧
          (run (fun _ => "") fillThenClear).error = "Please fill in all fields.")) := by
  have hrep : (run (fun _ => "") fillThenClear).report.isSome = true := by decide
  have hni : (run (fun _ => "") fillThenClear).financials.netIncome = "" := by decide
  have herr : (run (fun _ => "") fillThenClear).error = "" := by decide
  refine ⟨⟨hrep, hni, herr⟩, fun h => ?_⟩
  have hall := h.1.1 hrep
  exact hall _ (by simp [Financials.values]) hni

/-- C4, amended: in every state reachable by edits and clicks, if all six fields are
non-empty then the report is present and no error is shown (so an absent report means
an empty field); the error is empty or `Please fill in all fields.`, and it is that
message only while some field is empty. -/
theorem report_present_when_filled (numberToString : ℚ → String) (events : List Event) :
    ((∀ v ∈ (run numberToString events).financials.values, v ≠ "") →
      (run numberToString events).report.isSome = true ∧
      (run numberToString events).error = "") ∧
    ((run numberToString events).report = none →
      ∃ v ∈ (run numberToString events).financials.values, v = "") ∧
    ((run numberToString events).error = "" ∨
      ((run numberToString events).error = "Please fill in all fields." ∧
        ∃ v ∈ (run numberToString events).financials.values, v = "")) := by
  have hc := consistent_run numberToString events
  refine ⟨fun h => ?_, fun hnone => ?_, hc.2⟩
  · obtain ⟨hr, he⟩ := hc.1 h
    exact ⟨by rw [hr]; rfl, he⟩
  · by_contra hne
    have hall : ∀ v ∈ (run numberToString events).financials.values, v ≠ "" := by
      by_contra h2
      exact hne ((not_filled_iff _).1 h2)
    rw [(hc.1 hall).1] at hnone
    cases hnone

/-- C4, amended, at two runs: once the scenario is typed in the report is present without
an error; in the initial state the report is absent and a field is empty. -/
theorem report_present_when_filled_witness :
    ((∀ v ∈ (run (fun _ => "") fillScenario).financials.values, v ≠ "") ∧
      (run (fun _ => "") fillScenario).report.isSome = true ∧
      (run (fun _ => "") fillScenario).error = "") ∧
    ((run (fun _ => "") []).report = none ∧
      ∃ v ∈ (run (fun _ => "") []).financials.values, v = "") :=
  ⟨⟨by decide, (report_present_when_filled (fun _ => "") fillScenario).1 (by decide)⟩,
    ⟨by decide, (report_present_when_filled (fun _ => "") []).2.1 (by decide)⟩⟩

/-- C7: in every reachable state whose six fields are all non-empty, the stored report is
the one computed from the current fields: `calculateRatios` returns ratios there, and the
report is these ratios' entries, each with its name, its value under `toFixed(2)`, its
calculation string and the band `interpretRatio` gives its value; it is also the report a
`generateReport` call in that state would store. -/
theorem report_is_current (numberToString : ℚ → String) (events : List Event)
    (hfilled : ∀ v ∈ (run numberToString events).financials.values, v ≠ "") :
    (∃ r, (calculateRatios (run numberToString events)).2 = some r ∧
      (run numberToString events).report =
        some (r.entries.map (fun entry =>
          { name := entry.1
            value := toFixed numberToString entry.2.value 2
            calculation := entry.2.calculation
            interpretation := interpretRatio entry.2.value entry.1 }))) ∧
    (run numberToString events).report =
      (generateReport numberToString (run numberToString events)).report := by
  have hc := (consistent_run numberToString events).1 hfilled
  refine ⟨⟨filledRatios (run numberToString events).financials, ?_, hc.1⟩, ?_⟩
  · rw [calculateRatios_of_filled _ hfilled]
  · rw [generateReport_of_filled _ _ hfilled, hc.1]

/-- C7 at a run that edits a filled form: the scenario typed in, then `netIncome` emptied
and set to 50; the stored report is the one of the final fields. -/
theorem report_is_current_witness :
    (∀ v ∈ (run (fun _ => "") fillClearRefill).financials.values, v ≠ "") ∧
    (run (fun _ => "") fillClearRefill).report =
      (generateReport (fun _ => "") (run (fun _ => "") fillClearRefill)).report :=
  have hfilled : ∀ v ∈ (run (fun _ => "") fillClearRefill).financials.values, v ≠ "" := by
    rw [run_financials]; decide
  ⟨hfilled, (report_is_current (fun _ => "") fillClearRefill hfilled).2⟩

/-! ## The report -/

/-- C5: for the scenario (revenue 1000, expenses 700, net income 300, current assets 500,
current liabilities 200, employment costs 210) `generateReport` stores the report
profitMargin `30.00` Good, expenseRatio `70.00` OK, liquidityCover `2.50` Good,
employmentCostRatio `30.00` OK, each with its calculation string. -/
theorem generateReport_scenario (numberToString : ℚ → String)
    (report : Option (List ReportEntry)) (error : String) :
    (generateReport numberToString
        { financials := scenario, report := report, error := error }).report =
      some
        [{ name := "profitMargin", value := "30.00", calculation := "(300 / 1000) * 100",
            interpretation := "Good" },
          { name := "expenseRatio", value := "70.00", calculation := "(700 / 1000) * 100",
            interpretation := "OK" },
          { name := "liquidityCover", value := "2.50", calculation := "500 / 200",
            interpretation := "Good" },
          { name := "employmentCostRatio", value := "30.00",
            calculation := "(210 / 700) * 100", interpretation := "OK" }] := by
  obtain ⟨h1, h2, h3, h4⟩ := scenario_values
  have hfilled : ∀ v ∈ scenario.values, v ≠ "" := by decide
  rw [generateReport_of_filled _ _ hfilled]
  simp only [Ratios.entries, List.map, reportEntry, h1, h2, h3, h4]
  rw [toFixed_of_nonneg numberToString 30 2 3000 (by norm_num) (by norm_num) (by norm_num)
      (by norm_num),
    toFixed_of_nonneg numberToString 70 2 7000 (by norm_num) (by norm_num) (by norm_num)
      (by norm_num),
    toFixed_of_nonneg numberToString (5 / 2) 2 250 (by norm_num) (by norm_num) (by norm_num)
      (by norm_num)]
  have e1 : pointDigits 3000 2 = "30.00" := by decide
  have e2 : pointDigits 7000 2 = "70.00" := by decide
  have e3 : pointDigits 250 2 = "2.50" := by decide
  have i1 : interpretRatio (.fin 30) "profitMargin" = "Good" := by decide
  have i2 : interpretRatio (.fin 70) "expenseRatio" = "OK" := by decide
  have i3 : interpretRatio (.fin (5 / 2)) "liquidityCover" = "Good" := by
    simp [interpretRatio, JSNum.gt, JSNum.lt]; norm_num
  have i4 : interpretRatio (.fin 30) "employmentCostRatio" = "OK" := by decide
  have c1 : (filledRatios scenario).profitMargin.calculation = "(300 / 1000) * 100" := by decide
  have c2 : (filledRatios scenario).expenseRatio.calculation = "(700 / 1000) * 100" := by decide
  have c3 : (filledRatios scenario).liquidityCover.calculation = "500 / 200" := by decide
  have c4 : (filledRatios scenario).employmentCostRatio.calculation = "(210 / 700) * 100" := by
    decide
  rw [e1, e2, e3, i1, i2, i3, i4, c1, c2, c3, c4]

/-- C6: with all six fields non-empty the report `generateReport` stores has exactly four
entries, named `profitMargin`, `expenseRatio`, `liquidityCover`, `employmentCostRatio`
in this order, and every interpretation is `Good`, `OK` or `Bad`, never `Unknown`. -/
theorem generateReport_four_entries (numberToString : ℚ → String) (s : State)
    (hfilled : ∀ v ∈ s.financials.values, v ≠ "") :
    ∃ entries, (generateReport numberToString s).report = some entries ∧
      entries.length = 4 ∧
      entries.map ReportEntry.name =
        ["profitMargin", "expenseRatio", "liquidityCover", "employmentCostRatio"] ∧
      (∀ e ∈ entries, e.interpretation = "Good" ∨ e.interpretation = "OK" ∨
        e.interpretation = "Bad") ∧
      ∀ e ∈ entries, e.interpretation ≠ "Unknown" := by
  rw [generateReport_of_filled _ _ hfilled]
  have hband : ∀ e ∈ (filledRatios s.financials).entries.map (reportEntry numberToString),
      e.interpretation = "Good" ∨ e.interpretation = "OK" ∨ e.interpretation = "Bad" := by
    intro e he
    simp only [Ratios.entries, List.map, List.mem_cons, List.mem_singleton,
      List.not_mem_nil, or_false] at he
    rcases he with h | h | h | h <;> subst h <;> simp only [reportEntry] <;>
      apply interpretRatio_band <;> simp
  refine ⟨_, rfl, rfl, rfl, hband, fun e he hU => ?_⟩
  rcases hband e he with h | h | h <;> rw [h] at hU <;> exact absurd hU (by decide)

/-- C6 at the scenario of the specification. -/
theorem generateReport_four_entries_witness :
    (∀ v ∈ scenario.values, v ≠ "") ∧
    ∃ entries,
      (generateReport (fun _ => "")
        { financials := scenario, report := none, error := "" }).report = some entries ∧
      entries.length = 4 ∧
      entries.map ReportEntry.name =
        ["profitMargin", "expenseRatio", "liquidityCover", "employmentCostRatio"] ∧
      (∀ e ∈ entries, e.interpretation = "Good" ∨ e.interpretation = "OK" ∨
        e.interpretation = "Bad") ∧
      ∀ e ∈ entries, e.interpretation ≠ "Unknown" :=
  ⟨by decide,
    generateReport_four_entries (fun _ => "")
      { financials := scenario, report := none, error := "" } (by decide)⟩

/-- C8: a zero denominator is not validated: with all six fields non-empty and one of
`totalRevenue`, `totalExpenses`, `currentLiabilities` reading as zero, `calculateRatios`
leaves the error as it is and returns ratios (one of them not finite), and
`generateReport` stores a report of four entries. -/
theorem zero_denominator_not_validated (numberToString : ℚ → String) (s : State)
    (hfilled : ∀ v ∈ s.financials.values, v ≠ "")
    (hzero : (toNumber s.financials.totalRevenue).isZero = true ∨
      (toNumber s.financials.totalExpenses).isZero = true ∨
      (toNumber s.financials.currentLiabilities).isZero = true) :
    (calculateRatios s).1 = s ∧
    (∃ r, (calculateRatios s).2 = some r ∧
      (r.profitMargin.value.toRat? = none ∨ r.employmentCostRatio.value.toRat? = none ∨
        r.liquidityCover.value.toRat? = none)) ∧
    (generateReport numberToString s).error = s.error ∧
    ∃ entries, (generateReport numberToString s).report = some entries ∧
      entries.length = 4 := by
  rw [generateReport_of_filled _ _ hfilled, calculateRatios_of_filled _ hfilled]
  refine ⟨rfl, ⟨_, rfl, ?_⟩, rfl, _, rfl, rfl⟩
  rcases hzero with h | h | h
  · exact Or.inl (toRat?_mul_of_none _ _ (toRat?_div_zero _ _ h))
  · exact Or.inr (Or.inl (toRat?_mul_of_none _ _ (toRat?_div_zero _ _ h)))
  · exact Or.inr (Or.inr (toRat?_div_zero _ _ h))

/-- C8 at the scenario with the revenue field holding `0`. -/
theorem zero_denominator_not_validated_witness :
    ((∀ v ∈ zeroRevenue.values, v ≠ "") ∧ zeroRevenue.totalRevenue = "0" ∧
      (toNumber zeroRevenue.totalRevenue).isZero = true) ∧
    (calculateRatios { financials := zeroRevenue, report := none, error := "" }).1 =
      { financials := zeroRevenue, report := none, error := "" } ∧
    (∃ r, (calculateRatios { financials := zeroRevenue, report := none, error := "" }).2 =
        some r ∧
      (r.profitMargin.value.toRat? = none ∨ r.employmentCostRatio.value.toRat? = none ∨
        r.liquidityCover.value.toRat? = none)) ∧
    (generateReport (fun _ => "")
      { financials := zeroRevenue, report := none, error := "" }).error = "" ∧
    ∃ entries,
      (generateReport (fun _ => "")
        { financials := zeroRevenue, report := none, error := "" }).report = some entries ∧
      entries.length = 4 :=
  have hz : (toNumber zeroRevenue.totalRevenue).isZero = true := by
    have h : stringNumericLiteral zeroRevenue.totalRevenue = .decimal false 0 0 := by decide
    simp [toNumber, h, NumericLiteral.value, JSNum.signedZero, JSNum.isZero]
  ⟨⟨by decide, by decide, hz⟩,
    zero_denominator_not_validated (fun _ => "")
      { financials := zeroRevenue, report := none, error := "" } (by decide) (Or.inl hz)⟩

/-! ## Displayed thresholds and rounding -/

/-- C9, at the band boundaries: `interpretRatio` returns `Bad` for a profit margin of
exactly 5, an expense ratio of exactly 80, a liquidity cover of exactly 1 and an
employment cost ratio of exactly 40, while the thresholds of `ratioExplanations` put
each of these values in the band `OK` (`5% - 10%`, `65% - 80%`, `1 - 2`, `30% - 40%`) and
not in `Bad` (`< 5%`, `> 80%`, `< 1`, `> 40%`); and the form with revenue 100, expenses 80,
net income 5, current assets 200, current liabilities 200, employment costs 32 gets a
report with all four ratios `Bad`. -/
theorem interpretRatio_boundary_not_displayed (numberToString : ℚ → String) :
    (interpretRatio (.fin 5) "profitMargin" = "Bad" ∧
      displayedBands "profitMargin" 5 = ["OK"]) ∧
    (interpretRatio (.fin 80) "expenseRatio" = "Bad" ∧
      displayedBands "expenseRatio" 80 = ["OK"]) ∧
    (interpretRatio (.fin 1) "liquidityCover" = "Bad" ∧
      displayedBands "liquidityCover" 1 = ["OK"]) ∧
    (interpretRatio (.fin 40) "employmentCostRatio" = "Bad" ∧
      displayedBands "employmentCostRatio" 40 = ["OK"]) ∧
    (generateReport numberToString
        { financials := boundaryForm, report := none, error := "" }).report =
      some
        [{ name := "profitMargin", value := "5.00", calculation := "(5 / 100) * 100",
            interpretation := "Bad" },
          { name := "expenseRatio", value := "80.00", calculation := "(80 / 100) * 100",
            interpretation := "Bad" },
          { name := "liquidityCover", value := "1.00", calculation := "200 / 200",
            interpretation := "Bad" },
          { name := "employmentCostRatio", value := "40.00",
            calculation := "(32 / 80) * 100", interpretation := "Bad" }] := by
  refine ⟨⟨by decide, ?_⟩, ⟨by decide, ?_⟩, ⟨by decide, ?_⟩, ⟨by decide, ?_⟩, ?_⟩
  · rw [(displayedBands_eq 5).1]; norm_num
  · rw [(displayedBands_eq 80).2.1]; norm_num
  · rw [(displayedBands_eq 1).2.2.1]; norm_num
  · rw [(displayedBands_eq 40).2.2.2]; norm_num
  · have hfilled : ∀ v ∈ boundaryForm.values, v ≠ "" := by decide
    have n1 : toNumber "100" = .fin 100 := by
      rw [toNumber_of_decimal "100" 100 0 (by decide) (by decide)]; norm_num
    have n2 : toNumber "80" = .fin 80 := by
      rw [toNumber_of_decimal "80" 80 0 (by decide) (by decide)]; norm_num
    have n3 : toNumber "5" = .fin 5 := by
      rw [toNumber_of_decimal "5" 5 0 (by decide) (by decide)]; norm_num
    have n4 : toNumber "200" = .fin 200 := by
      rw [toNumber_of_decimal "200" 200 0 (by decide) (by decide)]; norm_num
    have n5 : toNumber "32" = .fin 32 := by
      rw [toNumber_of_decimal "32" 32 0 (by decide) (by decide)]; norm_num
    have v1 : (filledRatios boundaryForm).profitMargin.value = .fin 5 := by
      simp only [filledRatios, boundaryForm, n1, n3]
      rw [div_fin _ _ (by norm_num) (by norm_num), mul_fin _ _ (by norm_num) (by norm_num)]
      norm_num
    have v2 : (filledRatios boundaryForm).expenseRatio.value = .fin 80 := by
      simp only [filledRatios, boundaryForm, n1, n2]
      rw [div_fin _ _ (by norm_num) (by norm_num), mul_fin _ _ (by norm_num) (by norm_num)]
      norm_num
    have v3 : (filledRatios boundaryForm).liquidityCover.value = .fin 1 := by
      simp only [filledRatios, boundaryForm, n4]
      rw [div_fin _ _ (by norm_num) (by norm_num)]
      norm_num
    have v4 : (filledRatios boundaryForm).employmentCostRatio.value = .fin 40 := by
      simp only [filledRatios, boundaryForm, n2, n5]
      rw [div_fin _ _ (by norm_num) (by norm_num), mul_fin _ _ (by norm_num) (by norm_num)]
      norm_num
    rw [generateReport_of_filled _ _ hfilled]
    simp only [Ratios.entries, List.map, reportEntry, v1, v2, v3, v4]
    rw [toFixed_of_nonneg numberToString 5 2 500 (by norm_num) (by norm_num) (by norm_num)
        (by norm_num),
      toFixed_of_nonneg numberToString 80 2 8000 (by norm_num) (by norm_num) (by norm_num)
        (by norm_num),
      toFixed_of_nonneg numberToString 1 2 100 (by norm_num) (by norm_num) (by norm_num)
        (by norm_num),
      toFixed_of_nonneg numberToString 40 2 4000 (by norm_num) (by norm_num) (by norm_num)
        (by norm_num)]
    have e1 : pointDigits 500 2 = "5.00" := by decide
    have e2 : pointDigits 8000 2 = "80.00" := by decide
    have e3 : pointDigits 100 2 = "1.00" := by decide
    have e4 : pointDigits 4000 2 = "40.00" := by decide
    have i1 : interpretRatio (.fin 5) "profitMargin" = "Bad" := by decide
    have i2 : interpretRatio (.fin 80) "expenseRatio" = "Bad" := by decide
    have i3 : interpretRatio (.fin 1) "liquidityCover" = "Bad" := by decide
    have i4 : interpretRatio (.fin 40) "employmentCostRatio" = "Bad" := by decide
    have c1 : (filledRatios boundaryForm).profitMargin.calculation = "(5 / 100) * 100" := by
      decide
    have c2 : (filledRatios boundaryForm).expenseRatio.calculation = "(80 / 100) * 100" := by
      decide
    have c3 : (filledRatios boundaryForm).liquidityCover.calculation = "200 / 200" := by decide
    have c4 : (filledRatios boundaryForm).employmentCostRatio.calculation =
        "(32 / 80) * 100" := by decide
    rw [e1, e2, e3, e4, i1, i2, i3, i4, c1, c2, c3, c4]

/-- C10: `generateReport` classifies the unrounded ratio: with all fields non-empty each
entry's interpretation is `interpretRatio` of the value `calculateRatios` computed; and
for net income 10001 and revenue 100000 the entry `profitMargin` shows `10.00` with the
interpretation `Good`, although `interpretRatio` of the shown number 10.00 is `OK`. -/
theorem interpretation_of_unrounded_value (numberToString : ℚ → String) :
    (∀ s : State, (∀ v ∈ s.financials.values, v ≠ "") →
      ∃ r entries, (calculateRatios s).2 = some r ∧
        (generateReport numberToString s).report = some entries ∧
        entries.map ReportEntry.interpretation =
          [interpretRatio r.profitMargin.value "profitMargin",
            interpretRatio r.expenseRatio.value "expenseRatio",
            interpretRatio r.liquidityCover.value "liquidityCover",
            interpretRatio r.employmentCostRatio.value "employmentCostRatio"]) ∧
    (∃ e rest,
      (generateReport numberToString
        { financials := justAboveTen, report := none, error := "" }).report =
          some (e :: rest) ∧
      e.name = "profitMargin" ∧ e.value = "10.00" ∧ e.interpretation = "Good" ∧
      interpretRatio (toNumber e.value) "profitMargin" = "OK") := by
  constructor
  · intro s hfilled
    refine ⟨filledRatios s.financials,
      (filledRatios s.financials).entries.map (reportEntry numberToString), ?_, ?_, rfl⟩
    · rw [calculateRatios_of_filled _ hfilled]
    · rw [generateReport_of_filled _ _ hfilled]
  · have hfilled : ∀ v ∈ justAboveTen.values, v ≠ "" := by decide
    have n1 : toNumber "10001" = .fin 10001 := by
      rw [toNumber_of_decimal "10001" 10001 0 (by decide) (by decide)]; norm_num
    have n2 : toNumber "100000" = .fin 100000 := by
      rw [toNumber_of_decimal "100000" 100000 0 (by decide) (by decide)]; norm_num
    have n3 : toNumber "10.00" = .fin 10 := by
      rw [toNumber_of_decimal "10.00" 1000 (-2) (by decide) (by decide)]; norm_num
    have v1 : (filledRatios justAboveTen).profitMargin.value = .fin (10001 / 1000) := by
      simp only [filledRatios, justAboveTen, n1, n2]
      rw [div_fin _ _ (by norm_num) (by norm_num), mul_fin _ _ (by norm_num) (by norm_num)]
      norm_num
    rw [generateReport_of_filled _ _ hfilled]
    refine ⟨_, _, rfl, rfl, ?_, ?_, ?_⟩
    · simp only [reportEntry, v1]
      rw [toFixed_of_nonneg numberToString (10001 / 1000) 2 1000 (by norm_num) (by norm_num)
        (by norm_num) (by norm_num)]
      decide
    · simp only [reportEntry, v1]
      simp [interpretRatio, JSNum.gt, JSNum.lt]
      norm_num
    · simp only [reportEntry, v1]
      rw [toFixed_of_nonneg numberToString (10001 / 1000) 2 1000 (by norm_num) (by norm_num)
        (by norm_num) (by norm_num)]
      have e1 : pointDigits 1000 2 = "10.00" := by decide
      rw [e1, n3]
      decide

/-- C10 at the scenario of the specification: the four interpretations are those of the
computed values. -/
theorem interpretation_of_unrounded_value_witness :
    (∀ v ∈ scenario.values, v ≠ "") ∧
    ∃ r entries,
      (calculateRatios { financials := scenario, report := none, error := "" }).2 = some r ∧
      (generateReport (fun _ => "")
        { financials := scenario, report := none, error := "" }).report = some entries ∧
      entries.map ReportEntry.interpretation =
        [interpretRatio r.profitMargin.value "profitMargin",
          interpretRatio r.expenseRatio.value "expenseRatio",
          interpretRatio r.liquidityCover.value "liquidityCover",
          interpretRatio r.employmentCostRatio.value "employmentCostRatio"] :=
  ⟨by decide,
    (interpretation_of_unrounded_value (fun _ => "")).1
      { financials := scenario, report := none, error := "" } (by decide)⟩

end CharityFinanceChecker
